import Mathlib

/-!
Shallow embedding of `datastore_stressor.py`, a stress tester for a remote
datastore HTTP API.  Python runtime values that flow through the script are
modelled by a small JSON-value universe `JVal`; Python exceptions by `PyError`;
fallible code returns `Except PyError _`.  External effects (the `dmesg`
subprocess, the gzip library, the filesystem, and every HTTP call made through
`requests`) are modelled by explicit world records whose fields fix the outcome
of each external interaction, so each embedded function is a pure function of
its arguments and its world.
-/

/-- Python exception classes that can arise in the script. -/
inductive PyError
  | valueError
  | keyError
  | typeError
  | attributeError
  | ioError
  | requestException
  deriving DecidableEq, Repr

/-- JSON values as produced by `response.json()` (Python's `json` module). -/
inductive JVal
  | jnull
  | jbool (b : Bool)
  | jnum (n : Int)
  | jstr (s : String)
  | jarr (xs : List JVal)
  | jobj (kvs : List (String × JVal))

/-- Python truthiness (`bool(v)`) for the modelled values. -/
def pyTruthy : JVal → Bool
  | JVal.jnull => false
  | JVal.jbool b => b
  | JVal.jnum n => n != 0
  | JVal.jstr s => s != ""
  | JVal.jarr xs => !xs.isEmpty
  | JVal.jobj kvs => !kvs.isEmpty

/-- Prefix test on character lists, used for Python substring containment. -/
def leadEq : List Char → List Char → Bool
  | [], _ => true
  | _ :: _, [] => false
  | a :: as, b :: bs => (a == b) && leadEq as bs

/-- Substring containment of `needle` in `hay` (Python `needle in str`). -/
def subSeq (needle : List Char) : List Char → Bool
  | [] => leadEq needle []
  | h :: t => leadEq needle (h :: t) || subSeq needle t

/-- Python `==` between a str `k` and an arbitrary value (cross-type is False). -/
def eqToStr (k : String) : JVal → Bool
  | JVal.jstr s => s == k
  | _ => false

/-- Python `k in v` for a string key `k`: key membership for dicts, substring
for strings, element equality for lists, `TypeError` otherwise. -/
def pyContains (k : String) : JVal → Except PyError Bool
  | JVal.jstr s => Except.ok (subSeq k.data s.data)
  | JVal.jarr xs => Except.ok (xs.any (eqToStr k))
  | JVal.jobj kvs => Except.ok ((kvs.find? (fun p => p.1 == k)).isSome)
  | _ => Except.error PyError.typeError

/-- Python `v[k]` for a string key: dict lookup (raising `KeyError` when the
key is absent), `TypeError` on every non-dict value. -/
def pyGetItemStr (v : JVal) (k : String) : Except PyError JVal :=
  match v with
  | JVal.jobj kvs =>
    match kvs.find? (fun p => p.1 == k) with
    | some p => Except.ok p.2
    | none => Except.error PyError.keyError
  | _ => Except.error PyError.typeError

/-- Python `for element in v`: lists yield elements, dicts yield keys, strings
yield one-character strings; other values raise `TypeError`. -/
def pyIter : JVal → Except PyError (List JVal)
  | JVal.jarr xs => Except.ok xs
  | JVal.jobj kvs => Except.ok (kvs.map (fun p => JVal.jstr p.1))
  | JVal.jstr s => Except.ok (s.data.map (fun c => JVal.jstr (String.mk [c])))
  | _ => Except.error PyError.typeError

/-- Module-level constants of `datastore_stressor.py`. -/
def DATA_FILE : String := "./data.txt"

def SERIAL : String := "M000000000000"

def TYPE : String := "inquire.network"

def DATA_FILE_KEY : String := "dataFileUri"

def PUSH_URL : String := "https://services.bsg.stage.gogoair.com/datastore/v1/item"

def PULL_URL : String := "https://services.bsg.stage.gogoair.com/datastore/v1/item/data/all"

def ID_LEN : Nat := 5

def WAIT_TIME : Nat := 2

/-- A `requests.Response`: HTTP status, reason phrase, and the result of
`response.json()` (`none` models a body that raises `ValueError` on decode). -/
structure Response where
  status : Nat
  reason : String
  jsonBody : Option JVal

/-- `response.ok` of the `requests` library: true iff the status is below 400. -/
def respOk (r : Response) : Bool := decide (r.status < 400)

/-- What `pull` hands to `parse_response`: a real response, or the empty-string
sentinel `''` that `pull` returns after a transport-level exception. -/
inductive PullResult
  | sentinel
  | resp (r : Response)

/-- The accumulation loop of `parse_response` (lines 119-123 of the source):
`uris = []; for element in ...: if element and datafileuri in element:
uris.append(element[datafileuri])`, with Python's short-circuit `and`. -/
def uriLoop (uris : List JVal) : List JVal → Except PyError (List JVal)
  | [] => Except.ok uris
  | element :: rest =>
    if pyTruthy element then
      match pyContains DATA_FILE_KEY element with
      | Except.error e => Except.error e
      | Except.ok true =>
        match pyGetItemStr element DATA_FILE_KEY with
        | Except.error e => Except.error e
        | Except.ok v => uriLoop (uris ++ [v]) rest
      | Except.ok false => uriLoop uris rest
    else uriLoop uris rest

/-- `parse_response(response)`.  On the sentinel string the attribute access
`response.ok` raises `AttributeError`.  Otherwise `json_response` starts as the
empty dict and is replaced by the decoded body only on an ok response whose
body decodes; the loop then iterates `json_response`. -/
def parse_response (response : PullResult) : Except PyError (List JVal) :=
  match response with
  | PullResult.sentinel => Except.error PyError.attributeError
  | PullResult.resp r =>
    let json_response : JVal :=
      if respOk r then
        match r.jsonBody with
        | some v => v
        | none => JVal.jobj []
      else JVal.jobj []
    match pyIter json_response with
    | Except.error e => Except.error e
    | Except.ok elems => uriLoop [] elems

/-- The spec-side extraction for a list of JSON objects: in iteration order,
the value at key `dataFileUri` of each truthy element containing that key. -/
def objUris : List JVal → List JVal
  | [] => []
  | JVal.jobj kvs :: rest =>
    if pyTruthy (JVal.jobj kvs) then
      match kvs.find? (fun p => p.1 == DATA_FILE_KEY) with
      | some p => p.2 :: objUris rest
      | none => objUris rest
    else objUris rest
  | _ :: rest => objUris rest

/-- Recognises a JSON object. -/
def isObj : JVal → Bool
  | JVal.jobj _ => true
  | _ => false

/-- The Python value bound to `push`'s `data` parameter: `None`, a str, or a
bytes object (a list of byte values). -/
inductive PyData
  | pnone
  | pstr (s : String)
  | pbytes (b : List Nat)
  deriving DecidableEq

/-- Truthiness of the `data` parameter. -/
def dataTruthy : PyData → Bool
  | PyData.pnone => false
  | PyData.pstr s => s != ""
  | PyData.pbytes b => !b.isEmpty

/-- Truthiness of the `filepath` parameter (`none` models Python `None`). -/
def pathTruthy : Option String → Bool
  | none => false
  | some s => s != ""

/-- The base64 alphabet. -/
def b64alphabet : List Char :=
  "ABCDEFGHIJKLMNOPQRSTUVWXYZabcdefghijklmnopqrstuvwxyz0123456789+/".data

/-- Character of the base64 alphabet at index `n`. -/
def b64char (n : Nat) : Char := b64alphabet.getD n '='

/-- `base64.standard_b64encode` on a bytes value. -/
def standard_b64encode : List Nat → List Char
  | [] => []
  | [a] => [b64char (a / 4), b64char (a % 4 * 16), '=', '=']
  | [a, b] => [b64char (a / 4), b64char (a % 4 * 16 + b / 16), b64char (b % 16 * 4), '=']
  | a :: b :: c :: rest =>
    b64char (a / 4) :: b64char (a % 4 * 16 + b / 16) ::
      b64char (b % 16 * 4 + c / 64) :: b64char (c % 64) :: standard_b64encode rest

/-- The arguments of a call to `push`. -/
structure PushArgs where
  data_type : String
  url : String
  serial : String
  filepath : Option String
  data : PyData
  tag : String

/-- External outcomes of one `push` call: whether `open(filepath, 'rb')`
raises `IOError`, the exception (if any) raised by `requests.post`, and the
response returned when no exception is raised. -/
structure PushWorld where
  openExc : Bool
  postExc : Option PyError
  resp : Response

/-- Observable outcome of a `push` call: its return value or escaping
exception, whether an HTTP POST was issued, and whether the local file handle
was opened and closed. -/
structure PushOutcome where
  result : Except PyError Bool
  posted : Bool
  fileOpened : Bool
  fileClosed : Bool
  item : List (String × JVal)

/-- The `item` JSON object built by `push` (lines 171-180). -/
def pushItem (args : PushArgs) (enc : Option (List Char)) : List (String × JVal) :=
  [("serial", JVal.jstr args.serial), ("type", JVal.jstr args.data_type)] ++
    (match enc with
     | some cs => [("data", JVal.jstr (String.mk cs))]
     | none => []) ++
    (if args.tag != "" then [("tag", JVal.jstr args.tag)] else [])

/-- The part of `push` from `requests.post` onward (lines 192-221), after the
file (if any) was opened successfully; `opened` records whether a handle was
opened.  The `finally` block closes the handle on every path, so every branch
sets `fileClosed := opened`.  `except ValueError` catches the JSON decode
failure, `except requests.RequestException` the transport failure; a
`KeyError` or `TypeError` from `response.json()['success']` is caught by
neither and escapes. -/
def pushPost (w : PushWorld) (opened : Bool) (item : List (String × JVal)) : PushOutcome :=
  match w.postExc with
  | some e =>
    if e = PyError.valueError ∨ e = PyError.requestException then
      ⟨Except.ok false, true, opened, opened, item⟩
    else
      ⟨Except.error e, true, opened, opened, item⟩
  | none =>
    if respOk w.resp then
      match w.resp.jsonBody with
      | none => ⟨Except.ok false, true, opened, opened, item⟩
      | some v =>
        match pyGetItemStr v "success" with
        | Except.error e => ⟨Except.error e, true, opened, opened, item⟩
        | Except.ok sv =>
          if !pyTruthy sv then ⟨Except.ok false, true, opened, opened, item⟩
          else ⟨Except.ok true, true, opened, opened, item⟩
    else ⟨Except.ok false, true, opened, opened, item⟩

/-- `push(data_type, url, serial, filepath, data, tag)` (lines 147-223).
The guard on line 167 raises `ValueError` only when BOTH `filepath` and `data`
are `None`; `base64.standard_b64encode(data)` on line 176 raises `TypeError`
when `data` is a truthy str, before the `try` block and before any network
call; `open(filepath, 'rb')` on line 187 may raise `IOError`, which is not
caught (and the handle was never assigned, so `finally` has nothing to
close). -/
def push (args : PushArgs) (w : PushWorld) : PushOutcome :=
  if args.filepath = none ∧ args.data = PyData.pnone then
    ⟨Except.error PyError.valueError, false, false, false, []⟩
  else
    let encRes : Except PyError (Option (List Char)) :=
      if dataTruthy args.data then
        match args.data with
        | PyData.pbytes b => Except.ok (some (standard_b64encode b))
        | _ => Except.error PyError.typeError
      else Except.ok none
    match encRes with
    | Except.error e =>
      ⟨Except.error e, false, false, false,
        [("serial", JVal.jstr args.serial), ("type", JVal.jstr args.data_type)]⟩
    | Except.ok enc =>
      let item := pushItem args enc
      if pathTruthy args.filepath then
        if w.openExc then ⟨Except.error PyError.ioError, false, false, false, item⟩
        else pushPost w true item
      else pushPost w false item

/-- External outcomes of the `dmesg` subprocess and of the gzip write inside
`create_data_file`. -/
structure GenWorld where
  dmesgRC : Nat
  dmesgOut : List Nat
  gzipWriteExc : Bool

/-- `create_data_file(path)` (lines 70-89) acting on the content of the data
file (modelled as `Option (List Nat)`, `none` when the file does not exist).
The gzip library is an external dependency, passed in as the compression
function `gz`.  Returns the boolean result and the new file content. -/
def create_data_file (gz : List Nat → List Nat) (w : GenWorld)
    (fs : Option (List Nat)) : Bool × Option (List Nat) :=
  if w.dmesgRC != 0 then (false, fs)
  else if w.gzipWriteExc then (false, fs)
  else (true, some (gz w.dmesgOut))

/-- `open(DATA_FILE, 'rb'); file.read()` as done in `main` (lines 52-53). -/
def readDataFile : Option (List Nat) → Except PyError (List Nat)
  | none => Except.error PyError.ioError
  | some d => Except.ok d

/-- External outcomes of one iteration of `main`'s loop: the world of its
`push` call, whether `requests.post` in `pull` raises, the pull response when
it does not, and the content served by `requests.get(uri)` for each URI
(`none` models a raising GET). -/
structure AttemptWorld where
  pushW : PushWorld
  pullExc : Bool
  pullResp : Response
  fetch : JVal → Option (List Nat)

/-- `pull(url, serial, data_type, tag)` (lines 127-144): on a transport
exception it logs and returns the empty string `''`, modelled by the
`sentinel`; otherwise the response. -/
def pull (url serial data_type tag : String) (aw : AttemptWorld) : PullResult :=
  if aw.pullExc then PullResult.sentinel else PullResult.resp aw.pullResp

/-- The verification loop of `main` (lines 55-62): fetch each URI and compare
with the built data; the comparison only logs, but a raising
`requests.get(uri)` escapes. -/
def verifyLoop (fetch : JVal → Option (List Nat)) (built : List Nat) :
    List JVal → Except PyError Unit
  | [] => Except.ok ()
  | uri :: rest =>
    match fetch uri with
    | none => Except.error PyError.requestException
    | some _ => verifyLoop fetch built rest

/-- The body of one iteration of `main`'s loop (lines 42-64): push, pull,
parse, read the data file back, and verify each URI.  Any exception raised by
a step escapes from the attempt. -/
def attemptBody (tag : String) (aw : AttemptWorld) (fs : Option (List Nat)) :
    Except PyError Unit :=
  match (push ⟨TYPE, PUSH_URL, SERIAL, some DATA_FILE, PyData.pstr "", tag⟩ aw.pushW).result with
  | Except.error e => Except.error e
  | Except.ok _ =>
    let response := pull PULL_URL SERIAL TYPE tag aw
    match parse_response response with
    | Except.error e => Except.error e
    | Except.ok uris =>
      match readDataFile fs with
      | Except.error e => Except.error e
      | Except.ok built => verifyLoop aw.fetch built uris

/-- Runs the attempts of `main`'s loop in order; returns how many attempts
were entered and the first escaping exception, if any. -/
def runAttempts (fs : Option (List Nat)) :
    List (String × AttemptWorld) → Nat × Except PyError Unit
  | [] => (0, Except.ok ())
  | (tag, aw) :: rest =>
    match attemptBody tag aw fs with
    | Except.error e => (1, Except.error e)
    | Except.ok _ =>
      let r := runAttempts fs rest
      (r.1 + 1, r.2)

/-- Outcome of `main(tries)`: the value it returns (or the exception that
escapes it) and the number of attempts entered. -/
structure MainOutcome where
  retval : Except PyError (Option Int)
  attemptsRun : Nat

/-- `main(tries)` (lines 33-67): create the data file once; on failure log and
return `-1` with no attempts; otherwise run the attempts (the per-attempt
worlds stand for the `tries` iterations) and return `None`. -/
def mainRun (gz : List Nat → List Nat) (gw : GenWorld) (fs0 : Option (List Nat))
    (attempts : List (String × AttemptWorld)) : MainOutcome :=
  let res := create_data_file gz gw fs0
  if res.1 = false then ⟨Except.ok (some (-1)), 0⟩
  else
    let r := runAttempts res.2 attempts
    ⟨match r.2 with
     | Except.ok _ => Except.ok none
     | Except.error e => Except.error e, r.1⟩

/-- The `__main__` block (lines 226-233): it calls `main(args.tries)` and
discards the return value, so the interpreter exits with status 0 unless an
exception escapes `main` (in which case CPython exits 1 after a traceback). -/
def scriptExit (gz : List Nat → List Nat) (gw : GenWorld) (fs0 : Option (List Nat))
    (attempts : List (String × AttemptWorld)) : Nat :=
  match (mainRun gz gw fs0 attempts).retval with
  | Except.error _ => 1
  | Except.ok _ => 0

/-- The loop of `parse_response`, run over a list of JSON objects, succeeds
and appends exactly the spec-side extraction to the accumulator. -/
theorem uriLoop_objs : ∀ (xs : List JVal) (acc : List JVal),
    (∀ v ∈ xs, isObj v = true) →
    uriLoop acc xs = Except.ok (acc ++ objUris xs) := by
  intro xs
  induction xs with
  | nil => intro acc h; simp [uriLoop, objUris]
  | cons v rest ih =>
    intro acc h
    have hv : isObj v = true := h v (List.mem_cons_self v rest)
    have hr : ∀ u ∈ rest, isObj u = true := fun u hu => h u (List.mem_cons_of_mem v hu)
    cases v with
    | jnull => simp [isObj] at hv
    | jbool b => simp [isObj] at hv
    | jnum n => simp [isObj] at hv
    | jstr s => simp [isObj] at hv
    | jarr ys => simp [isObj] at hv
    | jobj kvs =>
      by_cases ht : pyTruthy (JVal.jobj kvs) = true
      · cases hf : kvs.find? (fun p => p.1 == DATA_FILE_KEY) with
        | none =>
          simp only [uriLoop, objUris, ht, if_true, pyContains, pyGetItemStr, hf,
            Option.isSome_none]
          exact ih acc hr
        | some p =>
          simp only [uriLoop, objUris, ht, if_true, pyContains, pyGetItemStr, hf,
            Option.isSome_some]
          rw [ih (acc ++ [p.2]) hr]
          simp
      · simp only [uriLoop, objUris, ht, if_neg, Bool.false_eq_true, not_false_iff]
        exact ih acc hr

/-- C4 counterexample: a 2xx response whose body parses to the JSON value
`null` makes `parse_response` raise `TypeError` (the for loop cannot iterate
`None`), refuting "for a 2xx response whose body parses to any JSON value
whatsoever it still returns without raising". -/
theorem parse_response_nonlist_raises :
    parse_response (PullResult.resp ⟨200, "OK", some JVal.jnull⟩) =
      Except.error PyError.typeError := rfl

/-- C4 (amended): `parse_response` returns an ordered (possibly empty) list
without raising for every non-success response, for every response whose body
fails to decode as JSON (warning logged, empty list), and for every success
response whose body parses to a list of JSON objects; a success body parsing
to a non-iterable JSON value raises instead (see the counterexample). -/
theorem parse_response_total_on_expected (r : Response) :
    (respOk r = false → parse_response (PullResult.resp r) = Except.ok []) ∧
    (r.jsonBody = none → parse_response (PullResult.resp r) = Except.ok []) ∧
    (∀ xs : List JVal, respOk r = true → r.jsonBody = some (JVal.jarr xs) →
      (∀ v ∈ xs, isObj v = true) →
      parse_response (PullResult.resp r) = Except.ok (objUris xs)) := by
  refine ⟨?_, ?_, ?_⟩
  · intro h
    simp [parse_response, h, pyIter, uriLoop]
  · intro h
    cases hok : respOk r <;> simp [parse_response, h, hok, pyIter, uriLoop]
  · intro xs hok hb hobj
    simp only [parse_response, hok, if_true, hb, pyIter]
    simpa using uriLoop_objs xs [] hobj

/-- C4 witness: a 500 response yields the empty list. -/
theorem parse_response_total_on_expected_w :
    parse_response (PullResult.resp ⟨500, "Server Error", none⟩) = Except.ok [] :=
  (parse_response_total_on_expected ⟨500, "Server Error", none⟩).1 rfl

/-- C7: on a 2xx response whose body parses to a list of JSON objects,
`parse_response` appends in iteration order the `dataFileUri` value of each
truthy element containing that key and skips the others; in particular the
body `[{"dataFileUri":"a"},{"foo":"bar"},{"dataFileUri":"b"}]` yields
`["a","b"]` in that order. -/
theorem parse_response_extracts_uris :
    (∀ (r : Response) (xs : List JVal), respOk r = true →
      r.jsonBody = some (JVal.jarr xs) → (∀ v ∈ xs, isObj v = true) →
      parse_response (PullResult.resp r) = Except.ok (objUris xs)) ∧
    parse_response (PullResult.resp ⟨200, "OK", some (JVal.jarr
      [JVal.jobj [("dataFileUri", JVal.jstr "a")],
       JVal.jobj [("foo", JVal.jstr "bar")],
       JVal.jobj [("dataFileUri", JVal.jstr "b")]])⟩) =
      Except.ok [JVal.jstr "a", JVal.jstr "b"] := by
  constructor
  · intro r xs hok hb hobj
    simp only [parse_response, hok, if_true, hb, pyIter]
    simpa using uriLoop_objs xs [] hobj
  · rfl

/-- C7 witness: the general clause applied to a singleton body. -/
theorem parse_response_extracts_uris_w :
    parse_response (PullResult.resp ⟨200, "OK",
      some (JVal.jarr [JVal.jobj [("dataFileUri", JVal.jstr "u")]])⟩) =
      Except.ok (objUris [JVal.jobj [("dataFileUri", JVal.jstr "u")]]) :=
  parse_response_extracts_uris.1 _ _ rfl rfl (by decide)

/-- A 200 response carrying the given decoded JSON body. -/
def respWith (v : JVal) : Response := ⟨200, "OK", some v⟩

/-- The push arguments used by `main`: fixed type, URL and serial, the data
file path, the default empty-string `data`, and a tag. -/
def pushArgsFile : PushArgs :=
  ⟨TYPE, PUSH_URL, SERIAL, some DATA_FILE, PyData.pstr "", "test-AAAAA"⟩

/-- A push world in which nothing external goes wrong and the datastore
answers `{"success": true}`. -/
def benignPushW : PushWorld :=
  ⟨false, none, respWith (JVal.jobj [("success", JVal.jbool true)])⟩

/-- Every branch of the post phase of `push` closes the handle exactly when it
was opened (the `finally` block). -/
theorem pushPost_handle (w : PushWorld) (o : Bool) (item : List (String × JVal)) :
    (pushPost w o item).fileClosed = o ∧ (pushPost w o item).fileOpened = o := by
  unfold pushPost
  repeat' split
  all_goals exact ⟨rfl, rfl⟩

/-- In every outcome of `push`, the file handle was closed iff it was
opened. -/
theorem push_handle_eq (args : PushArgs) (w : PushWorld) :
    (push args w).fileClosed = (push args w).fileOpened := by
  unfold push
  repeat' split
  all_goals first
    | rfl
    | exact (pushPost_handle w true _).1.trans (pushPost_handle w true _).2.symm
    | exact (pushPost_handle w false _).1.trans (pushPost_handle w false _).2.symm

/-- C8: on every exit path of `push` in which the local file was opened for
the streaming upload — returning true, returning false, or propagating an
exception — the handle is closed before `push` exits. -/
theorem push_releases_handle (args : PushArgs) (w : PushWorld)
    (h : (push args w).fileOpened = true) : (push args w).fileClosed = true :=
  (push_handle_eq args w).trans h

/-- C8 witness: a concrete call that opens the file also closes it. -/
theorem push_releases_handle_w :
    (push pushArgsFile benignPushW).fileOpened = true ∧
    (push pushArgsFile benignPushW).fileClosed = true :=
  ⟨rfl, push_releases_handle pushArgsFile benignPushW rfl⟩

/-- C2: on a 2xx push response whose JSON body decodes but lacks a `success`
key (body `{"ok": true}`), `response.json()['success']` raises `KeyError`,
which neither `except ValueError` nor `except requests.RequestException`
catches, so the exception escapes `push` instead of a warning-and-false
return; a decoded body with `success` true yields true and with `success`
false yields false. -/
theorem push_missing_success_key_raises :
    (push pushArgsFile ⟨false, none, respWith (JVal.jobj [("ok", JVal.jbool true)])⟩).result =
      Except.error PyError.keyError ∧
    (push pushArgsFile benignPushW).result = Except.ok true ∧
    (push pushArgsFile ⟨false, none,
      respWith (JVal.jobj [("success", JVal.jbool false)])⟩).result = Except.ok false :=
  ⟨rfl, rfl, rfl⟩

/-- C3: called as `push(TYPE, PUSH_URL, SERIAL)` with the defaults
`filepath=''` and `data=''` — neither a file path nor inline data supplied —
the guard `filepath is None and data is None` does not fire, no configuration
error is raised, and an HTTP POST is issued anyway. -/
theorem push_no_payload_still_posts :
    (push ⟨TYPE, PUSH_URL, SERIAL, some "", PyData.pstr "", ""⟩ benignPushW).posted = true ∧
    (push ⟨TYPE, PUSH_URL, SERIAL, some "", PyData.pstr "", ""⟩ benignPushW).result =
      Except.ok true :=
  ⟨rfl, rfl⟩

/-- C10: `push` with a non-empty str `data` raises `TypeError` from
`base64.standard_b64encode(data)` before the `try` block, so before any
network call; inline data is accepted only as bytes. -/
theorem push_str_data_typeerror (t u sn : String) (fp : Option String)
    (tg : String) (w : PushWorld) (s : String) (h : s ≠ "") :
    (push ⟨t, u, sn, fp, PyData.pstr s, tg⟩ w).result = Except.error PyError.typeError ∧
    (push ⟨t, u, sn, fp, PyData.pstr s, tg⟩ w).posted = false := by
  have hne : ¬(fp = none ∧ PyData.pstr s = PyData.pnone) := by
    rintro ⟨-, hd⟩; cases hd
  have hd : dataTruthy (PyData.pstr s) = true := by
    simp [dataTruthy, bne_iff_ne, h]
  constructor <;> simp [push, hne, hd]

/-- C10 witness: a concrete str payload. -/
theorem push_str_data_typeerror_w :
    (push ⟨TYPE, PUSH_URL, SERIAL, some "", PyData.pstr "payload", ""⟩ benignPushW).result =
      Except.error PyError.typeError ∧
    (push ⟨TYPE, PUSH_URL, SERIAL, some "", PyData.pstr "payload", ""⟩ benignPushW).posted =
      false :=
  push_str_data_typeerror TYPE PUSH_URL SERIAL (some "") "" benignPushW "payload"
    (by decide)

/-- C6: when generation succeeds, the byte payload that the Data Generator
wrote to the local data file (the compressed diagnostic output `gz` applied to
the captured stdout) is exactly what the Verifier's read-back returns. -/
theorem data_file_round_trip (gz : List Nat → List Nat) (w : GenWorld)
    (fs : Option (List Nat)) (h1 : w.dmesgRC = 0) (h2 : w.gzipWriteExc = false) :
    (create_data_file gz w fs).1 = true ∧
    readDataFile (create_data_file gz w fs).2 = Except.ok (gz w.dmesgOut) := by
  constructor <;> simp [create_data_file, readDataFile, h1, h2]

/-- C6 witness: a concrete payload round-trips. -/
theorem data_file_round_trip_w :
    (create_data_file (fun l => 0 :: l) ⟨0, [7, 7], false⟩ none).1 = true ∧
    readDataFile (create_data_file (fun l => 0 :: l) ⟨0, [7, 7], false⟩ none).2 =
      Except.ok [0, 7, 7] :=
  data_file_round_trip (fun l => 0 :: l) ⟨0, [7, 7], false⟩ none rfl rfl

/-- C9: when the diagnostic command exits non-zero, `create_data_file` returns
false before `gzip.open` runs, leaving the file content at the path exactly as
it was. -/
theorem create_data_file_cmd_fail (gz : List Nat → List Nat) (w : GenWorld)
    (fs : Option (List Nat)) (h : w.dmesgRC ≠ 0) :
    create_data_file gz w fs = (false, fs) := by
  have hb : (w.dmesgRC != 0) = true := by simp [bne_iff_ne, h]
  simp [create_data_file, hb]

/-- C9 witness: return code 1 leaves an existing file untouched. -/
theorem create_data_file_cmd_fail_w :
    create_data_file (fun l => l) ⟨1, [3], false⟩ (some [5, 5]) = (false, some [5, 5]) :=
  create_data_file_cmd_fail (fun l => l) ⟨1, [3], false⟩ (some [5, 5]) (by decide)

/-- An attempt world whose only failure is a transport error in `pull`. -/
def sentinelAttempt : AttemptWorld :=
  ⟨benignPushW, true, respWith (JVal.jarr []), fun _ => some []⟩

/-- C1: an exception can escape an attempt of the driver loop: when `pull`
hits a transport error it returns its sentinel `''`, and `parse_response`
then evaluates `''.ok`, raising `AttributeError`, which propagates out of the
attempt body and terminates the loop. -/
theorem attempt_pull_sentinel_raises :
    attemptBody "test-AAAAA" sentinelAttempt (some []) =
      Except.error PyError.attributeError := rfl

/-- A fully benign attempt world. -/
def benignAttempt : AttemptWorld :=
  ⟨benignPushW, false, respWith (JVal.jarr []), fun _ => some []⟩

/-- C5: when the diagnostic command fails at startup, `main` runs zero
attempts and returns `-1`, but the `__main__` block calls `main(args.tries)`
without passing the value to `sys.exit`, so the process exit status is 0, not
non-zero; a successful run also exits 0. -/
theorem main_retval_ignored_exit_zero :
    (mainRun (fun l => l) ⟨1, [], false⟩ none [("test-AAAAA", benignAttempt)]).retval =
      Except.ok (some (-1)) ∧
    (mainRun (fun l => l) ⟨1, [], false⟩ none
      [("test-AAAAA", benignAttempt)]).attemptsRun = 0 ∧
    scriptExit (fun l => l) ⟨1, [], false⟩ none [("test-AAAAA", benignAttempt)] = 0 ∧
    scriptExit (fun l => l) ⟨0, [], false⟩ none [("test-AAAAA", benignAttempt)] = 0 :=
  ⟨rfl, rfl, rfl, rfl⟩
